import Mathlib

/-!
Shallow embedding of the `p2ppsr/user-wallet` Tauri backend
(`src-tauri/src/main.rs` and `src-tauri/src/tls.rs`).

The HTTP/HTTPS bridge forwards incoming requests to the UI surface as
events and correlates replies through a pending map keyed by request id.
Side effects (body reads, JSON serialization, event emission, oneshot
channel delivery, command execution, filesystem probes) are modelled as
explicit environment records; the control flow of each embedded function
mirrors the Rust source branch for branch.
-/

/-- Payload sent from Rust to the frontend for each HTTP request
(`HttpRequestEvent` in main.rs). -/
structure HttpRequestEvent where
  method : String
  path : String
  headers : List (String × String)
  body : String
  request_id : Nat

/-- Payload sent back from the frontend (`TsResponse` in main.rs).
`status` is a u16 in the source. -/
structure TsResponse where
  request_id : Nat
  status : Nat
  body : String

/-- A hyper `Response<Body>`: status code, header map, body.
`Response::new(body)` starts at status 200 with no headers. -/
structure HttpResponse where
  status : Nat
  headers : List (String × String)
  body : String

/-- `HeaderMap::insert`: replaces any existing value for the name. -/
def headerInsert (name value : String) (hs : List (String × String)) :
    List (String × String) :=
  hs.filter (fun q => q.1 ≠ name) ++ [(name, value)]

/-- `apply_cors_headers` (main.rs lines 255-274): inserts the five CORS
headers, in source order. -/
def apply_cors_headers (res : HttpResponse) : HttpResponse :=
  { res with
    headers :=
      headerInsert "Access-Control-Allow-Private-Network" "true"
        (headerInsert "Access-Control-Expose-Headers" "*"
          (headerInsert "Access-Control-Allow-Methods" "*"
            (headerInsert "Access-Control-Allow-Headers" "*"
              (headerInsert "Access-Control-Allow-Origin" "*" res.headers)))) }

/-- The header `name` is present with value `value` in the response. -/
def hasHeader (res : HttpResponse) (name value : String) : Prop :=
  (name, value) ∈ res.headers

instance (res : HttpResponse) (name value : String) :
    Decidable (hasHeader res name value) := by
  unfold hasHeader; infer_instance

/-- An incoming hyper request as seen by `handle_bridge_request`. -/
structure BridgeRequest where
  method : String
  uri : String
  headers : List (String × String)

/-- Outcome of `rx.await` on the oneshot receiver (main.rs line 351):
either a `TsResponse` was delivered, or the sender was dropped without
sending (channel closed). -/
inductive AwaitOutcome
  | replied (ts : TsResponse)
  | closed

/-- Environment of one `handle_bridge_request` call: the outcome of each
effectful step. `bodyRead` is `hyper::body::to_bytes` (already passed
through `from_utf8_lossy`); `serializeOk` is whether
`serde_json::to_string` succeeds; `emitOk` is whether
`main_window.emit("http-request", ...)` succeeds. -/
structure BridgeEnv where
  bodyRead : Except String String
  serializeOk : Bool
  emitOk : Bool
  awaited : AwaitOutcome

/-- The Correlation Table (`PendingMap`, a `DashMap<u64, Sender>`,
modelled by its key set) together with the `AtomicU64` request counter. -/
structure BridgeState where
  pending : List Nat
  counter : Nat

/-- `DashMap::insert`: the key is now present (any previous entry for it
is replaced). -/
def insertPending (id : Nat) (p : List Nat) : List Nat :=
  id :: p.filter (fun k => k ≠ id)

/-- `DashMap::remove`: the key is no longer present. -/
def removePending (id : Nat) (p : List Nat) : List Nat :=
  p.filter (fun k => k ≠ id)

/-- `http::StatusCode::from_u16`: accepts exactly 100..=999. -/
def statusCodeFromU16 (s : Nat) : Option Nat :=
  if 100 ≤ s ∧ s ≤ 999 then some s else none

/-- u64 modulus for the wrapping `fetch_add` on the request counter. -/
def U64_MOD : Nat := 2 ^ 64

/-- Result of one `handle_bridge_request` call: the HTTP response
returned to the caller, the state after the handler's own map/counter
operations, and the forward events it published to the UI surface. -/
structure BridgeResult where
  response : HttpResponse
  state : BridgeState
  emitted : List HttpRequestEvent

/-- `handle_bridge_request` (main.rs lines 276-369), branch for branch:
OPTIONS short-circuit; counter `fetch_add`; body read (400 on failure);
pending insert; payload serialization (500 + remove on failure); event
emission (500 + remove on failure); await reply (status from u16 with
200 fallback, or 504 when the channel closed). -/
def handle_bridge_request (req : BridgeRequest) (env : BridgeEnv)
    (st : BridgeState) : BridgeResult :=
  if req.method = "OPTIONS" then
    { response := apply_cors_headers { status := 200, headers := [], body := "" },
      state := st, emitted := [] }
  else
    let request_id := st.counter
    let st1 : BridgeState := { st with counter := (st.counter + 1) % U64_MOD }
    match env.bodyRead with
    | Except.error _ =>
      { response := apply_cors_headers
          { status := 400, headers := [], body := "Failed to read request body" },
        state := st1, emitted := [] }
    | Except.ok body_str =>
      let st2 : BridgeState := { st1 with pending := insertPending request_id st1.pending }
      let event_payload : HttpRequestEvent :=
        { method := req.method, path := req.uri, headers := req.headers,
          body := body_str, request_id := request_id }
      if env.serializeOk = false then
        { response := apply_cors_headers
            { status := 500, headers := [], body := "Internal Server Error" },
          state := { st2 with pending := removePending request_id st2.pending },
          emitted := [] }
      else if env.emitOk = false then
        { response := apply_cors_headers
            { status := 500, headers := [], body := "Internal Server Error" },
          state := { st2 with pending := removePending request_id st2.pending },
          emitted := [] }
      else
        match env.awaited with
        | AwaitOutcome.replied ts =>
          { response := apply_cors_headers
              { status := (statusCodeFromU16 ts.status).getD 200, headers := [],
                body := ts.body },
            state := st2, emitted := [event_payload] }
        | AwaitOutcome.closed =>
          { response := apply_cors_headers
              { status := 504, headers := [], body := "Gateway Timeout" },
            state := st2, emitted := [event_payload] }

/-- What the `ts-response` listener logged during one event delivery. -/
inductive ListenerLog
  | sendFailed (id : Nat)
  | unknownId (id : Nat)
  | parseFailed
  | emptyPayload

/-- Result of one delivery of a `ts-response` event: the pending map
afterwards, the responses actually delivered to waiting callers, and the
log lines emitted. -/
structure ListenerResult where
  pending : List Nat
  delivered : List TsResponse
  log : List ListenerLog

/-- The `ts-response` event callback (main.rs lines 680-703):
non-empty payload is parsed; a parsed reply whose id is pending removes
the entry and sends on the oneshot channel (a send failure is logged);
an unknown id, a parse failure and an empty payload are each logged and
the map is left alone. `payloadNonEmpty` models `payload.len() > 0`,
`parsed` the `serde_json::from_str::<TsResponse>` outcome, `sendOk`
whether `tx.send` succeeds. -/
def ts_response_listener (payloadNonEmpty : Bool) (parsed : Option TsResponse)
    (sendOk : Bool) (pending : List Nat) : ListenerResult :=
  if payloadNonEmpty then
    match parsed with
    | some ts =>
      if pending.contains ts.request_id then
        let p' := removePending ts.request_id pending
        if sendOk then
          { pending := p', delivered := [ts], log := [] }
        else
          { pending := p', delivered := [],
            log := [ListenerLog.sendFailed ts.request_id] }
      else
        { pending := pending, delivered := [],
          log := [ListenerLog.unknownId ts.request_id] }
    | none =>
      { pending := pending, delivered := [], log := [ListenerLog.parseFailed] }
  else
    { pending := pending, delivered := [], log := [ListenerLog.emptyPayload] }

/-- Action of the HTTP (127.0.0.1:3321) server task on its bind outcome
(main.rs lines 735-767): serve on success, log and `process::exit(1)`
on failure. -/
inductive HttpBindAction
  | serve
  | logAndExitProcess (code : Nat)

/-- Whether the action terminates the whole process. -/
def terminatesProcess : HttpBindAction → Bool
  | HttpBindAction.serve => false
  | HttpBindAction.logAndExitProcess _ => true

def http_bind_branch (bindOk : Bool) : HttpBindAction :=
  if bindOk then HttpBindAction.serve else HttpBindAction.logAndExitProcess 1

/-- Action of the HTTPS (127.0.0.1:2121) server task on its bind outcome
(main.rs lines 801-807): serve on success, log and return from the task
on failure — the process and the other listener keep running. -/
inductive HttpsBindAction
  | serve
  | logAndReturn

def https_bind_branch (bindOk : Bool) : HttpsBindAction :=
  if bindOk then HttpsBindAction.serve else HttpsBindAction.logAndReturn

/-!
Embedding of `src-tauri/src/tls.rs`. External commands and filesystem
probes become environment records; each embedded function follows the
Rust control flow branch for branch, returning the `Result` together
with the list of `eprintln!` log lines it would emit.
-/

/-- Outcome of `std::process::Command::status()`: spawn succeeded and
the exit status was success, spawn succeeded but the exit status was a
failure, or spawning itself failed. -/
inductive CmdOutcome
  | okSuccess
  | okFailure (code : Nat)
  | spawnFailed (msg : String)

/-- Environment of `trust_on_linux` and `trust_chrome_on_linux`. -/
structure LinuxTrustEnv where
  /-- `env::var("HOME")`, `none` when unset. -/
  home : Option String
  /-- `fs::create_dir_all` on `~/.local/share/ca-certificates`. -/
  createDirOk : Bool
  /-- whether the copied `.crt` target already exists. -/
  targetExists : Bool
  /-- `fs::copy` of the certificate into the local CA store. -/
  copyOk : Bool
  /-- `command_exists("trust")`. -/
  trustToolExists : Bool
  /-- the `trust anchor` invocation. -/
  trustAnchor : CmdOutcome
  /-- whether `~/.pki/nssdb` exists. -/
  nssDirExists : Bool
  /-- `command_exists("certutil")`. -/
  certutilExists : Bool
  /-- the `certutil -A` invocation adding the cert to the NSS store. -/
  certutilAdd : CmdOutcome

/-- `trust_chrome_on_linux` (tls.rs lines 275-328). -/
def trust_chrome_on_linux (env : LinuxTrustEnv) :
    Except String Unit × List String :=
  match env.home with
  | none => (Except.error "failed to resolve HOME", [])
  | some _ =>
    if env.nssDirExists = false then
      (Except.ok (), [])
    else if env.certutilExists = false then
      (Except.ok (), ["certutil not found; cannot add certificate to Chrome NSS store"])
    else
      match env.certutilAdd with
      | CmdOutcome.okSuccess => (Except.ok (), [])
      | CmdOutcome.okFailure _ =>
        (Except.ok (), ["failed to install certificate into Chrome NSS store"])
      | CmdOutcome.spawnFailed _ =>
        (Except.ok (), ["failed to execute certutil"])

/-- `trust_on_linux` (tls.rs lines 241-272): HOME resolution failure is
returned as an error; CA-store preparation, copy and `trust anchor`
failures are logged and ignored; then `trust_chrome_on_linux` runs. -/
def trust_on_linux (env : LinuxTrustEnv) (newly_created : Bool) :
    Except String Unit × List String :=
  match env.home with
  | none => (Except.error "failed to resolve HOME", [])
  | some _ =>
    let storeLogs : List String :=
      if env.createDirOk = false then
        ["failed to prepare local CA directory"]
      else if (newly_created || env.targetExists = false) && env.copyOk = false then
        ["failed to copy certificate into local CA store"]
      else []
    let anchorLogs : List String :=
      if env.trustToolExists then
        match env.trustAnchor with
        | CmdOutcome.spawnFailed _ => ["failed to execute trust tool"]
        | _ => []
      else []
    let chrome := trust_chrome_on_linux env
    (chrome.1, storeLogs ++ anchorLogs ++ chrome.2)

/-- Environment of `trust_on_macos`. -/
structure MacTrustEnv where
  /-- whether `security find-certificate` succeeded for one of the known
  labels (only consulted when the bundle is not newly created). -/
  labelFound : Bool
  /-- `env::var("HOME")`, `none` when unset. -/
  home : Option String
  /-- the `security add-trusted-cert` invocation. -/
  addTrustedCert : CmdOutcome

/-- `trust_on_macos` (tls.rs lines 160-209): an already-trusted label
short-circuits; HOME resolution failure is returned as an error;
`add-trusted-cert` failures are logged and ignored. -/
def trust_on_macos (env : MacTrustEnv) (newly_created : Bool) :
    Except String Unit × List String :=
  if (!newly_created) && env.labelFound then
    (Except.ok (), [])
  else
    match env.home with
    | none => (Except.error "failed to resolve keychain path", [])
    | some _ =>
      match env.addTrustedCert with
      | CmdOutcome.okSuccess => (Except.ok (), [])
      | CmdOutcome.okFailure _ =>
        (Except.ok (), ["failed to add certificate to macOS keychain, continuing"])
      | CmdOutcome.spawnFailed _ =>
        (Except.ok (), ["failed to execute security tool"])

/-- Environment of `trust_on_windows`. -/
structure WinTrustEnv where
  /-- the `certutil -addstore` invocation. -/
  addStore : CmdOutcome

/-- `trust_on_windows` (tls.rs lines 212-238): a no-op unless the bundle
is newly created; `certutil` failures are logged and ignored. -/
def trust_on_windows (env : WinTrustEnv) (newly_created : Bool) :
    Except String Unit × List String :=
  if newly_created = false then
    (Except.ok (), [])
  else
    match env.addStore with
    | CmdOutcome.okSuccess => (Except.ok (), [])
    | CmdOutcome.okFailure _ =>
      (Except.ok (), ["failed to add certificate to Windows store, continuing"])
    | CmdOutcome.spawnFailed _ =>
      (Except.ok (), ["failed to execute certutil"])

/-- The compilation target, selecting which `cfg(target_os = ...)` block
of `trust_certificate` is active. -/
inductive Platform
  | macos
  | windows
  | linux

/-- Environment of `trust_certificate`: the active platform and the
per-platform command/filesystem outcomes. -/
structure TrustEnv where
  platform : Platform
  macEnv : MacTrustEnv
  winEnv : WinTrustEnv
  linuxEnv : LinuxTrustEnv

/-- `trust_certificate` (tls.rs lines 140-157): dispatch on the target
platform, `?`-propagating the platform installer's result. -/
def trust_certificate (env : TrustEnv) (newly_created : Bool) :
    Except String Unit × List String :=
  match env.platform with
  | Platform.macos => trust_on_macos env.macEnv newly_created
  | Platform.windows => trust_on_windows env.winEnv newly_created
  | Platform.linux => trust_on_linux env.linuxEnv newly_created

/-- Environment of `ensure_localhost_tls`: filesystem probes of the three
certificate artifacts, directory resolution/creation, the outcome of
`generate_certificate`, the trust environment, and the outcome of
`load_rustls_config`. -/
structure EnsureEnv where
  /-- `app.path().app_local_data_dir()`. -/
  appLocalDataDirOk : Bool
  /-- `fs::create_dir_all` on the certificates directory. -/
  createDirAllOk : Bool
  /-- `cert_path.exists()` (certificate PEM). -/
  cert_exists : Bool
  /-- `key_path.exists()` (key PEM). -/
  key_exists : Bool
  /-- `cert_der_path.exists()` (certificate DER). -/
  der_exists : Bool
  /-- the outcome of `generate_certificate`. -/
  genResult : Except String Unit
  trust : TrustEnv
  /-- the outcome of `load_rustls_config`. -/
  loadResult : Except String Unit

/-- Outcome of `ensure_localhost_tls`: its `Result`, the final value of
the `newly_created` flag passed to `trust_certificate`, and whether
`generate_certificate` was invoked at all. -/
structure EnsureOutcome where
  result : Except String Unit
  newly_created : Bool
  generated : Bool

/-- The tail of `ensure_localhost_tls` after certificate generation:
`trust_certificate(&paths, newly_created)?` then `load_rustls_config`. -/
def ensureTail (env : EnsureEnv) (newly_created : Bool) : Except String Unit :=
  match (trust_certificate env.trust newly_created).1 with
  | Except.error e => Except.error e
  | Except.ok _ => env.loadResult

/-- `ensure_localhost_tls` (tls.rs lines 32-58): resolve and create the
certificates directory; regenerate when the certificate PEM or the key
PEM is missing, marking the bundle newly created; install trust; load
the rustls config. -/
def ensure_localhost_tls (env : EnsureEnv) : EnsureOutcome :=
  if env.appLocalDataDirOk = false then
    { result := Except.error "failed to resolve app local data dir",
      newly_created := false, generated := false }
  else if env.createDirAllOk = false then
    { result := Except.error "failed to create certificates dir",
      newly_created := false, generated := false }
  else if env.cert_exists = false || env.key_exists = false then
    match env.genResult with
    | Except.error e =>
      { result := Except.error e, newly_created := false, generated := true }
    | Except.ok _ =>
      { result := ensureTail env true, newly_created := true, generated := true }
  else
    { result := ensureTail env false, newly_created := false, generated := false }

/-! Helper lemmas. -/

theorem mem_headerInsert_self (n v : String) (hs : List (String × String)) :
    (n, v) ∈ headerInsert n v hs := by
  simp [headerInsert]

theorem mem_headerInsert_keep (n v : String) (p : String × String)
    (hs : List (String × String)) (hp : p ∈ hs) (hne : p.1 ≠ n) :
    p ∈ headerInsert n v hs := by
  simp [headerInsert, List.mem_filter]
  exact Or.inl ⟨hp, hne⟩

/-- All five CORS headers are present after `apply_cors_headers`,
whatever the response looked like before. -/
theorem cors_headers_all (res : HttpResponse) :
    hasHeader (apply_cors_headers res) "Access-Control-Allow-Origin" "*" ∧
    hasHeader (apply_cors_headers res) "Access-Control-Allow-Headers" "*" ∧
    hasHeader (apply_cors_headers res) "Access-Control-Allow-Methods" "*" ∧
    hasHeader (apply_cors_headers res) "Access-Control-Expose-Headers" "*" ∧
    hasHeader (apply_cors_headers res) "Access-Control-Allow-Private-Network" "true" := by
  unfold hasHeader apply_cors_headers
  refine ⟨?_, ?_, ?_, ?_, ?_⟩
  · exact mem_headerInsert_keep _ _ _ _
      (mem_headerInsert_keep _ _ _ _
        (mem_headerInsert_keep _ _ _ _
          (mem_headerInsert_keep _ _ _ _
            (mem_headerInsert_self _ _ _) (by decide)) (by decide)) (by decide))
      (by decide)
  · exact mem_headerInsert_keep _ _ _ _
      (mem_headerInsert_keep _ _ _ _
        (mem_headerInsert_keep _ _ _ _
          (mem_headerInsert_self _ _ _) (by decide)) (by decide)) (by decide)
  · exact mem_headerInsert_keep _ _ _ _
      (mem_headerInsert_keep _ _ _ _
        (mem_headerInsert_self _ _ _) (by decide)) (by decide)
  · exact mem_headerInsert_keep _ _ _ _ (mem_headerInsert_self _ _ _) (by decide)
  · exact mem_headerInsert_self _ _ _

/-! Claim theorems. -/

/-- C5: every HTTP response produced by the bridge request handler —
success responses, the 400, 500 and 504 error responses, and OPTIONS
preflight responses — carries all five CORS headers:
Access-Control-Allow-Origin, Access-Control-Allow-Headers,
Access-Control-Allow-Methods, Access-Control-Expose-Headers and
Access-Control-Allow-Private-Network. -/
theorem cors_completeness_every_response (req : BridgeRequest) (env : BridgeEnv)
    (st : BridgeState) :
    hasHeader (handle_bridge_request req env st).response
      "Access-Control-Allow-Origin" "*" ∧
    hasHeader (handle_bridge_request req env st).response
      "Access-Control-Allow-Headers" "*" ∧
    hasHeader (handle_bridge_request req env st).response
      "Access-Control-Allow-Methods" "*" ∧
    hasHeader (handle_bridge_request req env st).response
      "Access-Control-Expose-Headers" "*" ∧
    hasHeader (handle_bridge_request req env st).response
      "Access-Control-Allow-Private-Network" "true" := by
  obtain ⟨br, sk, ek, aw⟩ := env
  unfold handle_bridge_request
  by_cases h : req.method = "OPTIONS"
  · rw [if_pos h]
    exact cors_headers_all _
  · rw [if_neg h]
    cases br with
    | error e => exact cors_headers_all _
    | ok b =>
      cases sk
      · exact cors_headers_all _
      · cases ek
        · exact cors_headers_all _
        · cases aw with
          | replied ts => exact cors_headers_all _
          | closed => exact cors_headers_all _

/-- C8: every OPTIONS request is answered immediately with an empty body
and CORS headers, without allocating a request id, without inserting a
pending entry, and without publishing a forward event. -/
theorem options_short_circuit (req : BridgeRequest) (env : BridgeEnv)
    (st : BridgeState) (h : req.method = "OPTIONS") :
    (handle_bridge_request req env st).response.status = 200 ∧
    (handle_bridge_request req env st).response.body = "" ∧
    (handle_bridge_request req env st).state = st ∧
    (handle_bridge_request req env st).emitted = [] ∧
    hasHeader (handle_bridge_request req env st).response
      "Access-Control-Allow-Origin" "*" ∧
    hasHeader (handle_bridge_request req env st).response
      "Access-Control-Allow-Headers" "*" ∧
    hasHeader (handle_bridge_request req env st).response
      "Access-Control-Allow-Methods" "*" ∧
    hasHeader (handle_bridge_request req env st).response
      "Access-Control-Expose-Headers" "*" ∧
    hasHeader (handle_bridge_request req env st).response
      "Access-Control-Allow-Private-Network" "true" := by
  unfold handle_bridge_request
  rw [if_pos h]
  obtain ⟨h1, h2, h3, h4, h5⟩ := cors_headers_all
    { status := 200, headers := [], body := "" }
  exact ⟨rfl, rfl, rfl, rfl, h1, h2, h3, h4, h5⟩

def c8Req : BridgeRequest := { method := "OPTIONS", uri := "/", headers := [] }

def c8Env : BridgeEnv :=
  { bodyRead := Except.ok "", serializeOk := true, emitOk := true,
    awaited := AwaitOutcome.closed }

def c8St : BridgeState := { pending := [5], counter := 9 }

theorem options_short_circuit_witness :
    (handle_bridge_request c8Req c8Env c8St).response.status = 200 ∧
    (handle_bridge_request c8Req c8Env c8St).response.body = "" ∧
    (handle_bridge_request c8Req c8Env c8St).state = c8St ∧
    (handle_bridge_request c8Req c8Env c8St).emitted = [] ∧
    hasHeader (handle_bridge_request c8Req c8Env c8St).response
      "Access-Control-Allow-Origin" "*" ∧
    hasHeader (handle_bridge_request c8Req c8Env c8St).response
      "Access-Control-Allow-Headers" "*" ∧
    hasHeader (handle_bridge_request c8Req c8Env c8St).response
      "Access-Control-Allow-Methods" "*" ∧
    hasHeader (handle_bridge_request c8Req c8Env c8St).response
      "Access-Control-Expose-Headers" "*" ∧
    hasHeader (handle_bridge_request c8Req c8Env c8St).response
      "Access-Control-Allow-Private-Network" "true" :=
  options_short_circuit c8Req c8Env c8St rfl

/-- C4: for every forwarded request whose reply channel is closed
without a Reply ever being delivered, the waiting listener returns an
HTTP 504 Gateway Timeout response rather than hanging. -/
theorem closed_channel_yields_504 (req : BridgeRequest) (env : BridgeEnv)
    (st : BridgeState) (b : String)
    (hm : req.method ≠ "OPTIONS")
    (hb : env.bodyRead = Except.ok b)
    (hs : env.serializeOk = true)
    (he : env.emitOk = true)
    (ha : env.awaited = AwaitOutcome.closed) :
    (handle_bridge_request req env st).response.status = 504 ∧
    (handle_bridge_request req env st).response.body = "Gateway Timeout" := by
  unfold handle_bridge_request
  rw [if_neg hm, hb, hs, he, ha]
  exact ⟨rfl, rfl⟩

def c4Req : BridgeRequest :=
  { method := "POST", uri := "/v1/action", headers := [("origin", "https://app.example")] }

def c4Env : BridgeEnv :=
  { bodyRead := Except.ok "payload", serializeOk := true, emitOk := true,
    awaited := AwaitOutcome.closed }

def c4St : BridgeState := { pending := [], counter := 1 }

theorem closed_channel_yields_504_witness :
    (handle_bridge_request c4Req c4Env c4St).response.status = 504 ∧
    (handle_bridge_request c4Req c4Env c4St).response.body = "Gateway Timeout" :=
  closed_channel_yields_504 c4Req c4Env c4St "payload" (by decide) rfl rfl rfl rfl

/-- C7: for every non-OPTIONS request whose body read fails, the handler
returns HTTP 400 directly, publishes no forward event, and leaves the
Correlation Table unchanged. -/
theorem body_read_failure_400 (req : BridgeRequest) (env : BridgeEnv)
    (st : BridgeState) (e : String)
    (hm : req.method ≠ "OPTIONS")
    (hb : env.bodyRead = Except.error e) :
    (handle_bridge_request req env st).response.status = 400 ∧
    (handle_bridge_request req env st).emitted = [] ∧
    (handle_bridge_request req env st).state.pending = st.pending := by
  unfold handle_bridge_request
  rw [if_neg hm, hb]
  exact ⟨rfl, rfl, rfl⟩

def c7Req : BridgeRequest := { method := "POST", uri := "/v1/action", headers := [] }

def c7Env : BridgeEnv :=
  { bodyRead := Except.error "connection reset", serializeOk := true, emitOk := true,
    awaited := AwaitOutcome.closed }

def c7St : BridgeState := { pending := [3], counter := 4 }

theorem body_read_failure_400_witness :
    (handle_bridge_request c7Req c7Env c7St).response.status = 400 ∧
    (handle_bridge_request c7Req c7Env c7St).emitted = [] ∧
    (handle_bridge_request c7Req c7Env c7St).state.pending = c7St.pending :=
  body_read_failure_400 c7Req c7Env c7St "connection reset" (by decide) rfl

/-- C6: for every request whose forward payload fails to serialize or
whose forward-event publication fails, the handler returns HTTP 500 and
the pending entry inserted for that request id is removed again, so no
entry for that id remains resolvable. -/
theorem forward_failure_500_removes_pending (req : BridgeRequest) (env : BridgeEnv)
    (st : BridgeState) (b : String)
    (hm : req.method ≠ "OPTIONS")
    (hb : env.bodyRead = Except.ok b)
    (hfail : env.serializeOk = false ∨ env.emitOk = false) :
    (handle_bridge_request req env st).response.status = 500 ∧
    st.counter ∉ (handle_bridge_request req env st).state.pending ∧
    (handle_bridge_request req env st).emitted = [] := by
  unfold handle_bridge_request
  rw [if_neg hm, hb]
  rcases hfail with hs | he
  · rw [hs]
    refine ⟨rfl, ?_, rfl⟩
    show st.counter ∉ removePending st.counter (insertPending st.counter st.pending)
    simp [removePending, List.mem_filter]
  · cases hsk : env.serializeOk
    · refine ⟨rfl, ?_, rfl⟩
      show st.counter ∉ removePending st.counter (insertPending st.counter st.pending)
      simp [removePending, List.mem_filter]
    · rw [he]
      refine ⟨rfl, ?_, rfl⟩
      show st.counter ∉ removePending st.counter (insertPending st.counter st.pending)
      simp [removePending, List.mem_filter]

def c6Req : BridgeRequest := { method := "GET", uri := "/v1/status", headers := [] }

def c6Env : BridgeEnv :=
  { bodyRead := Except.ok "", serializeOk := true, emitOk := false,
    awaited := AwaitOutcome.closed }

def c6St : BridgeState := { pending := [2], counter := 6 }

theorem forward_failure_500_removes_pending_witness :
    (handle_bridge_request c6Req c6Env c6St).response.status = 500 ∧
    c6St.counter ∉ (handle_bridge_request c6Req c6Env c6St).state.pending ∧
    (handle_bridge_request c6Req c6Env c6St).emitted = [] :=
  forward_failure_500_removes_pending c6Req c6Env c6St "" (by decide) rfl (Or.inr rfl)

/-- C10: for every Reply delivered to a waiting listener whose status
field is not a valid HTTP status code (outside 100..=999 as accepted by
StatusCode::from_u16), the listener responds with HTTP 200 OK while
still using the Reply's body. -/
theorem invalid_reply_status_defaults_200 (req : BridgeRequest) (env : BridgeEnv)
    (st : BridgeState) (b : String) (ts : TsResponse)
    (hm : req.method ≠ "OPTIONS")
    (hb : env.bodyRead = Except.ok b)
    (hs : env.serializeOk = true)
    (he : env.emitOk = true)
    (ha : env.awaited = AwaitOutcome.replied ts)
    (hrange : ¬ (100 ≤ ts.status ∧ ts.status ≤ 999)) :
    (handle_bridge_request req env st).response.status = 200 ∧
    (handle_bridge_request req env st).response.body = ts.body := by
  unfold handle_bridge_request
  rw [if_neg hm, hb, hs, he, ha]
  refine ⟨?_, rfl⟩
  show (statusCodeFromU16 ts.status).getD 200 = 200
  rw [statusCodeFromU16, if_neg hrange]
  rfl

def c10Req : BridgeRequest := { method := "POST", uri := "/v1/action", headers := [] }

def c10Ts : TsResponse := { request_id := 1, status := 1000, body := "reply-body" }

def c10Env : BridgeEnv :=
  { bodyRead := Except.ok "payload", serializeOk := true, emitOk := true,
    awaited := AwaitOutcome.replied c10Ts }

def c10St : BridgeState := { pending := [], counter := 1 }

theorem invalid_reply_status_defaults_200_witness :
    (handle_bridge_request c10Req c10Env c10St).response.status = 200 ∧
    (handle_bridge_request c10Req c10Env c10St).response.body = c10Ts.body :=
  invalid_reply_status_defaults_200 c10Req c10Env c10St "payload" c10Ts
    (by decide) rfl rfl rfl rfl (by decide)

/-- C9: for every Reply delivered on the reply-event channel whose
request_id has no registered pending entry, the event callback logs and
discards it: the Correlation Table is unchanged, nothing is delivered to
any waiting caller, and the only observable effect is the log line. -/
theorem unknown_reply_logged_and_discarded (payloadNonEmpty : Bool)
    (ts : TsResponse) (sendOk : Bool) (pending : List Nat)
    (hp : payloadNonEmpty = true)
    (hu : pending.contains ts.request_id = false) :
    (ts_response_listener payloadNonEmpty (some ts) sendOk pending).pending = pending ∧
    (ts_response_listener payloadNonEmpty (some ts) sendOk pending).delivered = [] ∧
    (ts_response_listener payloadNonEmpty (some ts) sendOk pending).log =
      [ListenerLog.unknownId ts.request_id] := by
  subst hp
  have hu' : ts.request_id ∉ pending := by
    simpa using hu
  refine ⟨?_, ?_, ?_⟩ <;> simp [ts_response_listener, hu']

def c9Ts : TsResponse := { request_id := 7, status := 200, body := "late" }

theorem unknown_reply_logged_and_discarded_witness :
    (ts_response_listener true (some c9Ts) true [1, 2]).pending = [1, 2] ∧
    (ts_response_listener true (some c9Ts) true [1, 2]).delivered = [] ∧
    (ts_response_listener true (some c9Ts) true [1, 2]).log =
      [ListenerLog.unknownId c9Ts.request_id] :=
  unknown_reply_logged_and_discarded true c9Ts true [1, 2] rfl rfl

/-- C1 counterexample: a bind failure of the HTTP (port 3321) listener
does not merely disable that listener — the task logs and calls
`process::exit(1)`, terminating the whole process. -/
theorem http_bind_failure_exits_process :
    terminatesProcess (http_bind_branch false) = true := rfl

/-- C1 (amended): failure to bind the HTTPS (port 2121) listener logs
and disables only that listener (its task returns and the process keeps
running), while failure to bind the HTTP (port 3321) listener logs and
terminates the whole process with exit code 1. -/
theorem bind_failure_asymmetry :
    https_bind_branch false = HttpsBindAction.logAndReturn ∧
    http_bind_branch false = HttpBindAction.logAndExitProcess 1 ∧
    terminatesProcess (http_bind_branch true) = false :=
  ⟨rfl, rfl, rfl⟩

/-! Helper lemmas for the trust installer. -/

theorem trust_chrome_on_linux_ok (env : LinuxTrustEnv)
    (h : env.home.isSome = true) :
    (trust_chrome_on_linux env).1 = Except.ok () := by
  obtain ⟨home, cd, te, co, tt, ta, nd, ce, ca⟩ := env
  cases home with
  | none => simp at h
  | some s =>
    unfold trust_chrome_on_linux
    cases nd
    · rfl
    · cases ce
      · rfl
      · cases ca <;> rfl

theorem trust_on_linux_ok (env : LinuxTrustEnv) (nc : Bool)
    (h : env.home.isSome = true) :
    (trust_on_linux env nc).1 = Except.ok () := by
  obtain ⟨home, cd, te, co, tt, ta, nd, ce, ca⟩ := env
  cases home with
  | none => simp at h
  | some s =>
    exact trust_chrome_on_linux_ok ⟨some s, cd, te, co, tt, ta, nd, ce, ca⟩ rfl

theorem trust_on_macos_ok (env : MacTrustEnv) (nc : Bool)
    (h : env.home.isSome = true) :
    (trust_on_macos env nc).1 = Except.ok () := by
  obtain ⟨lf, home, atc⟩ := env
  unfold trust_on_macos
  cases nc
  · cases lf
    · cases home with
      | none => simp at h
      | some s => cases atc <;> rfl
    · rfl
  · cases home with
    | none => simp at h
    | some s => cases atc <;> rfl

theorem trust_on_windows_ok (env : WinTrustEnv) (nc : Bool) :
    (trust_on_windows env nc).1 = Except.ok () := by
  obtain ⟨ast⟩ := env
  unfold trust_on_windows
  cases nc
  · rfl
  · cases ast <;> rfl

theorem trust_certificate_ok (env : TrustEnv) (nc : Bool)
    (hlin : env.platform = Platform.linux → env.linuxEnv.home.isSome = true)
    (hmac : env.platform = Platform.macos → env.macEnv.home.isSome = true) :
    (trust_certificate env nc).1 = Except.ok () := by
  obtain ⟨p, me, we, le⟩ := env
  cases p
  · exact trust_on_macos_ok me nc (hmac rfl)
  · exact trust_on_windows_ok we nc
  · exact trust_on_linux_ok le nc (hlin rfl)

theorem ensureTail_ok (env : EnsureEnv) (nc : Bool)
    (hl : env.loadResult = Except.ok ())
    (hlin : env.trust.platform = Platform.linux →
      env.trust.linuxEnv.home.isSome = true)
    (hmac : env.trust.platform = Platform.macos →
      env.trust.macEnv.home.isSome = true) :
    ensureTail env nc = Except.ok () := by
  unfold ensureTail
  rw [trust_certificate_ok env.trust nc hlin hmac]
  exact hl

def c2LinuxEnv : LinuxTrustEnv :=
  { home := none, createDirOk := true, targetExists := false, copyOk := true,
    trustToolExists := false, trustAnchor := CmdOutcome.okSuccess,
    nssDirExists := false, certutilExists := false,
    certutilAdd := CmdOutcome.okSuccess }

def c2Env : EnsureEnv :=
  { appLocalDataDirOk := true, createDirAllOk := true,
    cert_exists := false, key_exists := false, der_exists := false,
    genResult := Except.ok (),
    trust :=
      { platform := Platform.linux,
        macEnv := { labelFound := false, home := none,
                    addTrustedCert := CmdOutcome.okSuccess },
        winEnv := { addStore := CmdOutcome.okSuccess },
        linuxEnv := c2LinuxEnv },
    loadResult := Except.ok () }

/-- C2 counterexample: on Linux with HOME unset, the trust installer
does not return success — `trust_on_linux` returns an error, and that
error propagates out of `ensure_localhost_tls`, even though certificate
generation and config loading would both succeed. -/
theorem home_failure_makes_trust_fatal :
    (trust_on_linux c2LinuxEnv true).1 = Except.error "failed to resolve HOME" ∧
    (ensure_localhost_tls c2Env).result =
      Except.error "failed to resolve HOME" :=
  ⟨rfl, rfl⟩

/-- C2 (amended): every trust-installer failure other than a failure to
resolve the HOME environment variable (used for the macOS keychain path
and the Linux CA store) is logged and non-fatal: whenever HOME is
resolvable on the active platform, `ensure_localhost_tls` proceeds past
trust installation to load the TLS context and succeeds, whatever the
trust commands did. -/
theorem trust_nonfatal_when_home_resolvable (env : EnsureEnv)
    (h1 : env.appLocalDataDirOk = true) (h2 : env.createDirAllOk = true)
    (hg : env.genResult = Except.ok ()) (hl : env.loadResult = Except.ok ())
    (hlin : env.trust.platform = Platform.linux →
      env.trust.linuxEnv.home.isSome = true)
    (hmac : env.trust.platform = Platform.macos →
      env.trust.macEnv.home.isSome = true) :
    (ensure_localhost_tls env).result = Except.ok () := by
  unfold ensure_localhost_tls
  rw [h1, h2]
  by_cases hc : (env.cert_exists = false || env.key_exists = false) = true
  · rw [if_pos hc, hg]
    exact ensureTail_ok env true hl hlin hmac
  · rw [if_neg hc]
    exact ensureTail_ok env false hl hlin hmac

def c2wLinuxEnv : LinuxTrustEnv :=
  { home := some "/home/user", createDirOk := false, targetExists := false,
    copyOk := false, trustToolExists := true,
    trustAnchor := CmdOutcome.spawnFailed "not found",
    nssDirExists := true, certutilExists := true,
    certutilAdd := CmdOutcome.okFailure 1 }

def c2wEnv : EnsureEnv :=
  { appLocalDataDirOk := true, createDirAllOk := true,
    cert_exists := false, key_exists := false, der_exists := false,
    genResult := Except.ok (),
    trust :=
      { platform := Platform.linux,
        macEnv := { labelFound := false, home := some "/Users/user",
                    addTrustedCert := CmdOutcome.okFailure 1 },
        winEnv := { addStore := CmdOutcome.okFailure 1 },
        linuxEnv := c2wLinuxEnv },
    loadResult := Except.ok () }

theorem trust_nonfatal_when_home_resolvable_witness :
    (ensure_localhost_tls c2wEnv).result = Except.ok () :=
  trust_nonfatal_when_home_resolvable c2wEnv rfl rfl rfl rfl
    (fun _ => rfl) (fun _ => rfl)

def c3Env : EnsureEnv :=
  { appLocalDataDirOk := true, createDirAllOk := true,
    cert_exists := true, key_exists := true, der_exists := false,
    genResult := Except.ok (),
    trust :=
      { platform := Platform.windows,
        macEnv := { labelFound := true, home := some "/Users/user",
                    addTrustedCert := CmdOutcome.okSuccess },
        winEnv := { addStore := CmdOutcome.okSuccess },
        linuxEnv := { home := some "/home/user", createDirOk := true,
                      targetExists := true, copyOk := true,
                      trustToolExists := false,
                      trustAnchor := CmdOutcome.okSuccess,
                      nssDirExists := false, certutilExists := false,
                      certutilAdd := CmdOutcome.okSuccess } },
    loadResult := Except.ok () }

/-- C3 counterexample: with the certificate PEM and key PEM present but
the certificate DER missing, `ensure_localhost_tls` does not re-trigger
generation and does not mark the bundle newly created — it proceeds and
succeeds with the partial bundle, contradicting the all-three-files
validity condition. -/
theorem missing_der_does_not_retrigger :
    c3Env.der_exists = false ∧
    (ensure_localhost_tls c3Env).generated = false ∧
    (ensure_localhost_tls c3Env).newly_created = false ∧
    (ensure_localhost_tls c3Env).result = Except.ok () :=
  ⟨rfl, rfl, rfl, rfl⟩

/-- C3 (amended): the on-disk bundle is considered valid exactly when
the certificate PEM and the key PEM both exist; if either of those two
is missing, generation is re-triggered and (when generation succeeds)
the bundle is marked newly created. The DER file is not consulted, so a
missing DER alone does not re-trigger generation. -/
theorem regen_triggered_iff_pem_missing (env : EnsureEnv)
    (h1 : env.appLocalDataDirOk = true) (h2 : env.createDirAllOk = true) :
    (ensure_localhost_tls env).generated =
      (!env.cert_exists || !env.key_exists) ∧
    (env.genResult = Except.ok () →
      (ensure_localhost_tls env).newly_created =
        (!env.cert_exists || !env.key_exists)) := by
  unfold ensure_localhost_tls
  rw [h1, h2]
  cases hce : env.cert_exists <;> cases hke : env.key_exists
  · refine ⟨?_, fun hgen => ?_⟩
    · cases hg : env.genResult <;> rfl
    · rw [hgen]
      rfl
  · refine ⟨?_, fun hgen => ?_⟩
    · cases hg : env.genResult <;> rfl
    · rw [hgen]
      rfl
  · refine ⟨?_, fun hgen => ?_⟩
    · cases hg : env.genResult <;> rfl
    · rw [hgen]
      rfl
  · exact ⟨rfl, fun _ => rfl⟩

def c3wEnv : EnsureEnv :=
  { appLocalDataDirOk := true, createDirAllOk := true,
    cert_exists := true, key_exists := false, der_exists := true,
    genResult := Except.ok (),
    trust :=
      { platform := Platform.macos,
        macEnv := { labelFound := false, home := some "/Users/user",
                    addTrustedCert := CmdOutcome.okSuccess },
        winEnv := { addStore := CmdOutcome.okSuccess },
        linuxEnv := { home := some "/home/user", createDirOk := true,
                      targetExists := false, copyOk := true,
                      trustToolExists := false,
                      trustAnchor := CmdOutcome.okSuccess,
                      nssDirExists := false, certutilExists := false,
                      certutilAdd := CmdOutcome.okSuccess } },
    loadResult := Except.ok () }

theorem regen_triggered_iff_pem_missing_witness :
    (ensure_localhost_tls c3wEnv).generated =
      (!c3wEnv.cert_exists || !c3wEnv.key_exists) ∧
    (c3wEnv.genResult = Except.ok () →
      (ensure_localhost_tls c3wEnv).newly_created =
        (!c3wEnv.cert_exists || !c3wEnv.key_exists)) :=
  regen_triggered_iff_pem_missing c3wEnv rfl rfl
